import Mathlib

/-!
Shallow embedding of the event-processing workers of the
Enterprise-Event-Analytics repository (src/backend/workers/):
`lead_scoring_worker.py`, `blockchain_worker.py`, `chat_analysis_worker.py`.

Conventions of the embedding:
* Python dict payloads become association lists `Payload` over a small
  dynamic value type `DataValue` (strings and numbers, the only payload
  value shapes the workers inspect).
* Python numbers are modelled as `ℚ` (exact rationals); integer scores as `Int`.
* Code that can raise becomes `Except String α`; a worker's outer
  `try/except` becomes a total function into `WResult`.
* Persistence (`save_to_database`, Neo4j upserts) catches all of its own
  exceptions and its return value is ignored by every caller, so it has no
  effect on the returned result and is not modelled.
* The hash-derived market-data / token-info stand-ins are modelled as an
  injected `Providers` record (the spec itself mandates an injectable
  provider behind the same interface).
* `round(x, k)` display rounding of already-computed rationals is not
  modelled; all stored scores are the exact values the code computes and
  branches on (the code also branches on the unrounded values).
-/

namespace EEA

/-! ### Character and string helpers (Python `str` methods and `re` basics) -/

/-- Python regex word character `\w` (ASCII fragment: letters, digits, underscore). -/
def wordChar (c : Char) : Bool := c.isAlphanum || c == '_'

/-- Python regex whitespace `\s` (ASCII fragment). -/
def wsChar (c : Char) : Bool :=
  c == ' ' || c == '\t' || c == '\n' || c == '\r' || c == '\x0b' || c == '\x0c'

/-- `str.lower()` on a character list (ASCII). -/
def lowerList (l : List Char) : List Char := l.map Char.toLower

/-- Boolean list-prefix test, used to search for substrings. -/
def isPrefixOfB : List Char → List Char → Bool
  | [], _ => true
  | _ :: _, [] => false
  | a :: as, b :: bs => a == b && isPrefixOfB as bs

/-- Python `needle in haystack` substring containment on char lists. -/
def containsSub (needle : List Char) : List Char → Bool
  | [] => needle.isEmpty
  | c :: cs => isPrefixOfB needle (c :: cs) || containsSub needle cs

/-- Python `needle in haystack` on strings. -/
def containsSubS (needle haystack : String) : Bool :=
  containsSub needle.toList haystack.toList

/-- `str.lower()` on strings (ASCII). -/
def lowerS (s : String) : String := String.mk (lowerList s.toList)

/-- Python `min(a, b)` on rationals (kept as an explicit conditional so the
kernel can evaluate it on concrete inputs). -/
def pyMin (a b : ℚ) : ℚ := if a ≤ b then a else b

/-- Python `max(a, b)` on rationals (explicit conditional, as `pyMin`). -/
def pyMax (a b : ℚ) : ℚ := if a ≤ b then b else a

/-- `message.count(ch)` — number of occurrences of a character. -/
def countChar (ch : Char) (s : String) : Nat := s.toList.count ch

/-! ### Tokenization: `re.findall(r'\b\w+\b', message.lower())`
A `\b\w+\b` findall over the lowercased message returns exactly the maximal
runs of word characters, in order. -/

/-- Maximal runs of characters satisfying `wordChar`, accumulator version. -/
def tokenizeAux : List Char → List Char → List (List Char)
  | [], acc => if acc.isEmpty then [] else [acc.reverse]
  | c :: cs, acc =>
      if wordChar c then tokenizeAux cs (c :: acc)
      else if acc.isEmpty then tokenizeAux cs []
      else acc.reverse :: tokenizeAux cs []

/-- `ChatAnalysisWorker.tokenize_message`: lowercase, then split into `\w+` runs. -/
def tokenize_message (message : String) : List String :=
  (tokenizeAux (lowerList message.toList) []).map String.mk

/-! ### Dynamic payload values -/

/-- A payload value: the workers only ever distinguish strings from numbers. -/
inductive DataValue where
  | str (s : String)
  | num (q : ℚ)
deriving DecidableEq

/-- Python truthiness of a payload value (`""` and `0` are falsy). -/
def DataValue.truthy : DataValue → Bool
  | .str s => !(s == "")
  | .num q => !(q == 0)

/-- A Python dict payload, as an association list. -/
def Payload := List (String × DataValue)

instance : DecidableEq Payload := by unfold Payload; infer_instance

/-- `data.get(k)` — first binding of a key, if any. -/
def pget (p : Payload) (k : String) : Option DataValue :=
  (p.find? (fun kv => kv.1 == k)).map (fun kv => kv.2)

/-- `data.get(k, default)`. -/
def pgetD (p : Payload) (k : String) (d : DataValue) : DataValue :=
  (pget p k).getD d

/-- `k in data and data[k]` — key present with a truthy value. -/
def presentTruthy (p : Payload) (k : String) : Bool :=
  match pget p k with
  | some v => v.truthy
  | none => false

/-- `str(v)`-style display of a payload value (used in error messages). -/
def DataValue.show : DataValue → String
  | .str s => s
  | .num q => toString q

/-- `v.lower()` when `v` is a string; raises `AttributeError` otherwise
(numbers have no `.lower()`). -/
def DataValue.lowerStr : DataValue → Except String String
  | .str s => .ok (lowerS s)
  | .num q => .error ("AttributeError: " ++ toString q ++ " has no attribute lower")

/-! ### Event envelope and terminal results -/

/-- The queue envelope as each worker's `process_event` sees it:
`event_data["data"]` raises `KeyError` when absent, so `data` is optional. -/
structure Envelope where
  data : Option Payload
  user_id : Option Int

/-- The error-result envelope every worker builds in its `except` handler. -/
structure ErrorData where
  id : String
  type : String
  error : String
  original_data : Payload
deriving DecidableEq

/-- A worker's terminal result: exactly one of a processed result or an
error result (`process_event` never raises). -/
inductive WResult (α : Type) where
  | processed (r : α)
  | errored (e : ErrorData)

/-- The error envelope a worker builds: `original_data = event_data.get("data", {})`. -/
def mkError (prefixId typeTag : String) (ts : Nat) (msg : String) (env : Envelope) :
    ErrorData :=
  { id := prefixId ++ toString ts
  , type := typeTag
  , error := msg
  , original_data := env.data.getD [] }

end EEA

namespace EEA

/-! ### A small JSON model (for `json.loads` / `json.dumps` as the lead worker uses them)
JSON numbers are modelled as integers: the scores the worker parses are
integral, and a non-integral numeral simply fails this parser (sending
`extract_score_from_analysis` to its regex fallback). String escapes are not
modelled (a backslash fails the parse); no verified property feeds escaped
strings or float literals to the parser. -/

inductive Json where
  | null
  | bool (b : Bool)
  | int (n : Int)
  | str (s : String)
  | arr (xs : List Json)
  | obj (kvs : List (String × Json))

/-- Skip regex-whitespace characters. -/
def skipWs (l : List Char) : List Char := l.dropWhile (fun c => wsChar c)

/-- A nonempty run of ASCII digits, with the rest of the input. -/
def parseDigits (l : List Char) : Option (List Char × List Char) :=
  let ds := l.takeWhile (fun c => c.isDigit)
  if ds.isEmpty then none else some (ds, l.drop ds.length)

/-- Digit run to a natural number. -/
def digitsToNat (ds : List Char) : Nat :=
  ds.foldl (fun acc c => acc * 10 + (c.toNat - 48)) 0

/-- An optionally-signed integer literal. -/
def parseIntLit (l : List Char) : Option (Int × List Char) :=
  match l with
  | '-' :: rest => (parseDigits rest).map (fun dr => (-(digitsToNat dr.1 : Int), dr.2))
  | _ => (parseDigits l).map (fun dr => ((digitsToNat dr.1 : Int), dr.2))

/-- Characters of a JSON string literal after the opening quote, up to the
closing quote; fails on a backslash (escapes unmodelled) or missing quote. -/
def parseStrChars : List Char → Option (List Char × List Char)
  | [] => none
  | c :: cs =>
      if c == '"' then some ([], cs)
      else if c == '\\' then none
      else (parseStrChars cs).map (fun sr => (c :: sr.1, sr.2))

mutual

/-- Fuel-indexed JSON value parser. -/
def parseVal : Nat → List Char → Option (Json × List Char)
  | 0, _ => none
  | fuel + 1, l =>
      match skipWs l with
      | [] => none
      | c :: rest =>
          if c == '"' then
            (parseStrChars rest).map (fun sr => (Json.str (String.mk sr.1), sr.2))
          else if c == '\x7b' then
            match skipWs rest with
            | '\x7d' :: r => some (Json.obj [], r)
            | _ => (parseMembers fuel rest).map (fun mr => (Json.obj mr.1, mr.2))
          else if c == '[' then
            match skipWs rest with
            | ']' :: r => some (Json.arr [], r)
            | _ => (parseElems fuel rest).map (fun er => (Json.arr er.1, er.2))
          else if isPrefixOfB "null".toList (c :: rest) then
            some (Json.null, (c :: rest).drop 4)
          else if isPrefixOfB "true".toList (c :: rest) then
            some (Json.bool true, (c :: rest).drop 4)
          else if isPrefixOfB "false".toList (c :: rest) then
            some (Json.bool false, (c :: rest).drop 5)
          else
            (parseIntLit (c :: rest)).map (fun nr => (Json.int nr.1, nr.2))

/-- Object members `"k": v (, "k": v)* }`. -/
def parseMembers : Nat → List Char → Option (List (String × Json) × List Char)
  | 0, _ => none
  | fuel + 1, l =>
      match skipWs l with
      | '"' :: rest =>
          match parseStrChars rest with
          | none => none
          | some kr =>
              match skipWs kr.2 with
              | ':' :: r2 =>
                  match parseVal fuel r2 with
                  | none => none
                  | some vr =>
                      match skipWs vr.2 with
                      | ',' :: r4 =>
                          (parseMembers fuel r4).map
                            (fun mr => ((String.mk kr.1, vr.1) :: mr.1, mr.2))
                      | '\x7d' :: r4 => some ([(String.mk kr.1, vr.1)], r4)
                      | _ => none
              | _ => none
      | _ => none

/-- Array elements `v (, v)* ]`. -/
def parseElems : Nat → List Char → Option (List Json × List Char)
  | 0, _ => none
  | fuel + 1, l =>
      match parseVal fuel l with
      | none => none
      | some vr =>
          match skipWs vr.2 with
          | ',' :: r2 => (parseElems fuel r2).map (fun er => (vr.1 :: er.1, er.2))
          | ']' :: r2 => some ([vr.1], r2)
          | _ => none

end

/-- `json.loads`: a full parse of one value with only trailing whitespace. -/
def jsonParse (s : String) : Option Json :=
  match parseVal (2 * s.length + 2) s.toList with
  | some vr => if (skipWs vr.2).isEmpty then some vr.1 else none
  | none => none

mutual

/-- `json.dumps` on the modelled JSON values. -/
def jsonDump : Json → String
  | .null => "null"
  | .bool b => if b then "true" else "false"
  | .int n => toString n
  | .str s => "\"" ++ s ++ "\""
  | .arr xs => "[" ++ jsonDumpElems xs ++ "]"
  | .obj kvs => "\x7b" ++ jsonDumpMembers kvs ++ "\x7d"

/-- Comma-joined array elements. -/
def jsonDumpElems : List Json → String
  | [] => ""
  | [x] => jsonDump x
  | x :: y :: rest => jsonDump x ++ ", " ++ jsonDumpElems (y :: rest)

/-- Comma-joined object members. -/
def jsonDumpMembers : List (String × Json) → String
  | [] => ""
  | [kv] => "\"" ++ kv.1 ++ "\": " ++ jsonDump kv.2
  | kv :: kv2 :: rest =>
      "\"" ++ kv.1 ++ "\": " ++ jsonDump kv.2 ++ ", " ++ jsonDumpMembers (kv2 :: rest)

end

/-- Key lookup in a parsed JSON object (`dict.get`). -/
def jsonLookup (kvs : List (String × Json)) (k : String) : Option Json :=
  (kvs.find? (fun kv => kv.1 == k)).map (fun kv => kv.2)

/-- Python `int(s)` on a string: optional surrounding whitespace, optional
sign, a digit run, nothing else. -/
def strToInt (s : String) : Option Int :=
  match parseIntLit (skipWs s.toList) with
  | some nr => if (skipWs nr.2).isEmpty then some nr.1 else none
  | none => none

/-- Python `int(v)` on a decoded JSON value; `none` where `int()` raises. -/
def jsonToInt : Json → Option Int
  | .int n => some n
  | .bool b => some (if b then 1 else 0)
  | .str s => strToInt s
  | _ => none

end EEA

namespace EEA

/-! ### Lead Scoring Worker (`lead_scoring_worker.py`) -/

/-- `LeadScoringWorker.validate_event`: required fields `name`, `email`,
each present with a truthy value. -/
def lead_validate_event (data : Payload) : Bool :=
  ["name", "email"].all (fun f => presentTruthy data f)

/-- Free-mail domains checked by `fallback_scoring` (substring containment). -/
def freeMailDomains : List String := ["gmail.com", "yahoo.com", "hotmail.com"]

/-- Institutional domain fragments checked by `fallback_scoring`. -/
def institutionalDomains : List String := [".edu", ".gov", ".org"]

/-- Email-domain adjustment of `fallback_scoring` (input already lowercased):
free-mail −10, institutional +15, otherwise business +5. -/
def emailAdjustment (email : String) : Int :=
  if freeMailDomains.any (fun d => containsSubS d email) then -10
  else if institutionalDomains.any (fun d => containsSubS d email) then 15
  else 5

/-- Company-size adjustment of `fallback_scoring` (input already lowercased). -/
def companySizeAdjustment (companySize : String) : Int :=
  if containsSubS "enterprise" companySize || containsSubS "1000+" companySize then 20
  else if containsSubS "medium" companySize || containsSubS "100-1000" companySize then 10
  else 0

/-- Title adjustment of `fallback_scoring` (input already lowercased). -/
def titleAdjustment (title : String) : Int :=
  if ["ceo", "cto", "vp", "director", "manager"].any
      (fun role => containsSubS role title) then 15
  else 0

/-- Source adjustment of `fallback_scoring` (input already lowercased;
list membership, not containment). -/
def sourceAdjustment (source : String) : Int :=
  if source ∈ ["referral", "linkedin", "conference"] then 10
  else if source ∈ ["cold_email", "advertisement"] then -5
  else 0

/-- The four lowercased fields `fallback_scoring` reads, in evaluation order;
`.lower()` on a non-string raises (propagating out of the fallback). -/
def fallbackFields (data : Payload) :
    Except String (String × String × String × String) := do
  let email ← (pgetD data "email" (.str "")).lowerStr
  let companySize ← (pgetD data "company_size" (.str "")).lowerStr
  let title ← (pgetD data "title" (.str "")).lowerStr
  let source ← (pgetD data "source" (.str "")).lowerStr
  pure (email, companySize, title, source)

/-- The integer score `fallback_scoring` computes: base 50 plus the four
adjustments, clamped to `[0, 100]` by `max(0, min(100, score))`. -/
def fallback_score (data : Payload) : Except String Int :=
  (fallbackFields data).map (fun f =>
    max 0 (min 100
      (50 + emailAdjustment f.1 + companySizeAdjustment f.2.1 +
        titleAdjustment f.2.2.1 + sourceAdjustment f.2.2.2)))

/-- The category expression on line 176 of `lead_scoring_worker.py`:
`'hot' if score >= 80 else 'warm' if score >= 60 else 'cold'`. -/
def fallback_category_of (score : Int) : String :=
  if score ≥ 80 then "hot" else if score ≥ 60 then "warm" else "cold"

/-- `LeadScoringWorker.fallback_scoring`: the JSON text the fallback returns. -/
def fallback_scoring (data : Payload) : Except String String :=
  (fallback_score data).map (fun score =>
    jsonDump (Json.obj
      [ ("score", Json.int score)
      , ("category", Json.str (fallback_category_of score))
      , ("reasoning", Json.str ("Rule-based scoring: " ++ toString score ++
          "/100 based on email domain, company size, title, and source"))
      , ("strengths", Json.arr [Json.str "Automated scoring available"])
      , ("concerns", Json.arr [Json.str "AI analysis unavailable"])
      , ("next_actions", Json.arr
          [Json.str "Follow up within 24 hours",
           Json.str "Qualify budget and timeline"]) ]))

/-- `LeadScoringWorker.analyze_lead_with_ai`: try the AI call; on any AI
failure return the rule-based fallback (whose own exceptions propagate). -/
def analyze_lead_with_ai (ai : Payload → Except String String) (data : Payload) :
    Except String String :=
  match ai data with
  | .ok s => .ok s
  | .error _ => fallback_scoring data

/-- The `json.loads` branch of `extract_score_from_analysis`: `none` exactly
where some step of `int(json.loads(s).get('score', 50))` raises. -/
def jsonScoreOf (s : String) : Option Int :=
  match jsonParse s with
  | some (Json.obj kvs) =>
      match jsonLookup kvs "score" with
      | some v => jsonToInt v
      | none => some 50
  | some _ => none
  | none => none

/-- One attempt of the regex `"score":\s*(\d+)` at the head of the input. -/
def regexScoreAt (l : List Char) : Option Int :=
  if isPrefixOfB "\"score\":".toList l then
    let r := skipWs (l.drop 8)
    let ds := r.takeWhile (fun c => c.isDigit)
    if ds.isEmpty then none else some (digitsToNat ds)
  else none

/-- `re.search(r'"score":\s*(\d+)', s)`: the first match anywhere. -/
def regexScore : List Char → Option Int
  | [] => none
  | c :: cs =>
      match regexScoreAt (c :: cs) with
      | some n => some n
      | none => regexScore cs

/-- `LeadScoringWorker.extract_score_from_analysis`: JSON parse first, then
the regex fallback, then the default 50. -/
def extract_score_from_analysis (s : String) : Int :=
  match jsonScoreOf s with
  | some n => n
  | none =>
      match regexScore s.toList with
      | some n => n
      | none => 50

/-- `LeadScoringWorker.categorize_lead`. -/
def categorize_lead (score : Int) : String :=
  if score ≥ 80 then "hot"
  else if score ≥ 60 then "warm"
  else "cold"

/-- `LeadScoringWorker.get_recommendations` (static lookup by category). -/
def get_recommendations (category : String) (score : Int) : List String :=
  if category == "hot" then
    [ "Contact within 1 hour", "Schedule demo call",
      "Send personalized proposal", "Assign to senior sales rep" ]
  else if category == "warm" then
    [ "Follow up within 24 hours", "Send relevant case studies",
      "Schedule discovery call", "Add to nurture campaign" ]
  else
    [ "Add to long-term nurture sequence", "Send educational content",
      "Follow up in 1 week", "Qualify budget and timeline" ]

/-- The success-path result dict of `LeadScoringWorker.process_event`. -/
structure LeadProcessed where
  id : String
  type : String
  original_data : Payload
  ai_analysis : String
  lead_score : Int
  category : String
  recommendations : List String

/-- `event_data["data"]`: raises `KeyError` when absent. -/
def getData (env : Envelope) : Except String Payload :=
  match env.data with
  | some d => .ok d
  | none => .error "KeyError: data"

/-- The `try` block of `LeadScoringWorker.process_event`, with exceptions as
`Except`; `ai` is the injected OpenRouter call, `ts` the second-granularity
timestamp used for ids. -/
def lead_inner (ai : Payload → Except String String) (ts : Nat) (env : Envelope) :
    Except String LeadProcessed :=
  match getData env with
  | .error e => .error e
  | .ok data =>
      if lead_validate_event data then
        match analyze_lead_with_ai ai data with
        | .error e => .error e
        | .ok analysis =>
            let score := extract_score_from_analysis analysis
            let cat := categorize_lead score
            .ok { id := "lead_" ++ toString ts, type := "lead_scoring", original_data := data
                , ai_analysis := analysis, lead_score := score, category := cat
                , recommendations := get_recommendations cat score }
      else .error "Invalid lead data: missing required fields"

/-- `LeadScoringWorker.process_event`: the `try` block on success, the
`except` handler's error envelope on any exception. -/
def lead_process_event (ai : Payload → Except String String) (ts : Nat)
    (env : Envelope) : WResult LeadProcessed :=
  match lead_inner ai ts env with
  | .ok r => .processed r
  | .error e => .errored (mkError "lead_error_" "lead_scoring_error" ts e env)

end EEA

namespace EEA

/-! ### Chat Analysis Worker (`chat_analysis_worker.py`) — word lists -/

/-- `ChatAnalysisWorker.load_positive_words`. -/
def positive_words : List String :=
  [ "good", "great", "awesome", "amazing", "excellent", "fantastic"
  , "wonderful", "brilliant", "outstanding", "superb", "perfect"
  , "love", "like", "enjoy", "happy", "excited", "thrilled"
  , "bullish", "moon", "rocket", "gem", "diamond", "hands"
  , "hodl", "buy", "pump", "green", "profit", "gains"
  , "best", "top", "winner", "success", "victory", "champion"
  , "positive", "optimistic", "confident", "strong", "solid"
  , "thank", "thanks", "grateful", "appreciate", "blessed" ]

/-- `ChatAnalysisWorker.load_negative_words`. -/
def negative_words : List String :=
  [ "bad", "terrible", "awful", "horrible", "disgusting", "hate"
  , "dislike", "angry", "mad", "furious", "disappointed", "sad"
  , "bearish", "dump", "crash", "red", "loss", "losses"
  , "scam", "fraud", "fake", "lie", "lying", "cheat"
  , "worst", "bottom", "loser", "failure", "defeat", "disaster"
  , "negative", "pessimistic", "worried", "concerned", "afraid"
  , "panic", "fear", "scared", "anxious", "stressed", "broken" ]

/-- `ChatAnalysisWorker.load_toxic_words`. -/
def toxic_words : List String :=
  [ "spam", "scam", "fraud", "fake", "bot", "shill"
  , "pump", "dump", "rugpull", "ponzi", "pyramid"
  , "hate", "toxic", "troll", "fud", "manipulation"
  , "stupid", "idiot", "moron", "dumb", "retard"
  , "kill", "die", "death", "suicide", "harm" ]

/-- Stop words of `ChatAnalysisWorker.extract_keywords`. -/
def stop_words : List String :=
  [ "the", "a", "an", "and", "or", "but", "in", "on", "at", "to", "for"
  , "of", "with", "by", "is", "are", "was", "were", "be", "been", "being"
  , "have", "has", "had", "do", "does", "did", "will", "would", "could"
  , "should", "may", "might", "must", "can", "this", "that", "these", "those" ]

/-- English marker words of `ChatAnalysisWorker.detect_language`. -/
def english_words : List String :=
  ["the", "and", "or", "but", "is", "are", "was", "were", "have", "has"]

/-! ### Sentiment analysis -/

/-- The dict `ChatAnalysisWorker.analyze_sentiment` returns (scores kept as
exact rationals; `round(·, 3)` display rounding not modelled). -/
structure SentimentResult where
  score : ℚ
  label : String
  confidence : ℚ
  positive_words : ℕ
  negative_words : ℕ
  positive_matches : List String
  negative_matches : List String

/-- `ChatAnalysisWorker.analyze_sentiment`. -/
def analyze_sentiment (message : String) : SentimentResult :=
  let words := tokenize_message message
  let positive_count := (words.filter (fun w => w ∈ positive_words)).length
  let negative_count := (words.filter (fun w => w ∈ negative_words)).length
  let total := positive_count + negative_count
  let score : ℚ :=
    if total = 0 then 0
    else pyMax (-1) (pyMin 1 (((positive_count : ℚ) - (negative_count : ℚ)) / (words.length : ℚ)))
  let label : String :=
    if total = 0 then "neutral"
    else if score > 1/10 then "positive"
    else if score < -(1/10) then "negative"
    else "neutral"
  { score := score
  , label := label
  , confidence := pyMin 1 ((total : ℚ) / (max 1 words.length : ℕ))
  , positive_words := positive_count
  , negative_words := negative_count
  , positive_matches := words.filter (fun w => w ∈ positive_words)
  , negative_matches := words.filter (fun w => w ∈ negative_words) }

/-! ### Toxicity detection -/

/-- The toxicity score map of `detect_toxicity` (line 212):
`min(1.0, toxic_count / max(1, word_count) * 10)`. -/
def toxicity_score_formula (toxicCount wordCount : ℕ) : ℚ :=
  pyMin 1 ((toxicCount : ℚ) / (max 1 wordCount : ℕ) * 10)

/-- The dict `ChatAnalysisWorker.detect_toxicity` returns. -/
structure ToxicityResult where
  is_toxic : Bool
  score : ℚ
  level : String
  confidence : ℚ
  toxic_words : List String
  categories : List String

/-- `ChatAnalysisWorker.categorize_toxicity`. -/
def categorize_toxicity (toxicMatches : List String) : List String :=
  let hateWords : List String := ["hate", "toxic", "stupid", "idiot", "moron", "dumb"]
  let spamWords : List String := ["spam", "scam", "fraud", "fake", "bot", "shill"]
  let threatWords : List String := ["kill", "die", "death", "suicide", "harm"]
  (if toxicMatches.any (fun w => w ∈ hateWords) then ["hate_speech"] else []) ++
  (if toxicMatches.any (fun w => w ∈ spamWords) then ["spam"] else []) ++
  (if toxicMatches.any (fun w => w ∈ threatWords) then ["threats"] else [])

/-- `ChatAnalysisWorker.detect_toxicity`. -/
def detect_toxicity (message : String) : ToxicityResult :=
  let words := tokenize_message message
  let toxicMatches := words.filter (fun w => w ∈ toxic_words)
  let toxic_count := toxicMatches.length
  let score := toxicity_score_formula toxic_count words.length
  let level : String :=
    if score > 7/10 then "high"
    else if score > 3/10 then "medium"
    else if score > 0 then "low"
    else "none"
  { is_toxic := decide (score > 3/10)
  , score := score
  , level := level
  , confidence := pyMin 1 ((toxic_count : ℚ) / (max 1 words.length : ℕ) * 5)
  , toxic_words := toxicMatches
  , categories := categorize_toxicity toxicMatches }

end EEA

namespace EEA

/-! ### Spam detection -/

/-- Match a sequence of literal words separated by `\s+` at the head of the
input (the shape of the case-insensitive spam phrase patterns). -/
def matchWordsAt : List (List Char) → List Char → Bool
  | [], _ => true
  | [w], l => isPrefixOfB w l
  | w :: w2 :: ws, l =>
      isPrefixOfB w l &&
      (let rest := l.drop w.length
       let run := rest.takeWhile (fun c => wsChar c)
       !run.isEmpty && matchWordsAt (w2 :: ws) (rest.drop run.length))

/-- Does a predicate hold at some position of the input (`re.search`)? -/
def anyPos (p : List Char → Bool) : List Char → Bool
  | [] => p []
  | c :: cs => p (c :: cs) || anyPos p cs

/-- `re.search` of a `word\s+word` phrase pattern over the lowercased message. -/
def containsWordsSeq (ws : List String) (l : List Char) : Bool :=
  anyPos (matchWordsAt (ws.map String.toList)) l

/-- Match of `https?://[^\s]+` at the head of the input, returning the
matched characters. -/
def urlMatchAt (l : List Char) : Option (List Char) :=
  let attempt (p : String) : Option (List Char) :=
    if isPrefixOfB p.toList l then
      let rest := l.drop p.length
      let run := rest.takeWhile (fun c => !wsChar c)
      if run.isEmpty then none else some (p.toList ++ run)
    else none
  match attempt "https://" with
  | some m => some m
  | none => attempt "http://"

/-- `re.findall` driven by a match-at-position function: scan left to right,
consuming each match. Structural recursion on a fuel argument (one unit per
scanned position) so the kernel can evaluate it; a match always consumes at
least its leading character, so fuel = input length never runs out. -/
def findAllWithF (matchAt : List Char → Option (List Char)) : Nat → List Char → List String
  | 0, _ => []
  | _, [] => []
  | fuel + 1, c :: cs =>
      match matchAt (c :: cs) with
      | some m => String.mk m :: findAllWithF matchAt fuel (cs.drop (m.length - 1))
      | none => findAllWithF matchAt fuel cs

/-- `re.findall` (see `findAllWithF`). -/
def findAllWith (matchAt : List Char → Option (List Char)) (l : List Char) : List String :=
  findAllWithF matchAt l.length l

/-- `ChatAnalysisWorker.detect_spam`'s indicator list, in the order the code
appends: the twelve regex patterns (their source text is the indicator
label), then the three heuristics. -/
def spam_indicators (message : String) : List String :=
  let lower := lowerList message.toList
  (if containsWordsSeq ["click", "here"] lower then ["(?i)click\\s+here"] else []) ++
  (if containsWordsSeq ["free", "money"] lower then ["(?i)free\\s+money"] else []) ++
  (if containsWordsSeq ["guaranteed", "profit"] lower then ["(?i)guaranteed\\s+profit"] else []) ++
  (if containsWordsSeq ["100%", "return"] lower then ["(?i)100%\\s+returns?"] else []) ++
  (if containsWordsSeq ["risk", "free"] lower then ["(?i)risk\\s+free"] else []) ++
  (if containsWordsSeq ["limited", "time"] lower then ["(?i)limited\\s+time"] else []) ++
  (if containsWordsSeq ["act", "now"] lower then ["(?i)act\\s+now"] else []) ++
  (if containsWordsSeq ["dm", "me"] lower then ["(?i)dm\\s+me"] else []) ++
  (if containsWordsSeq ["private", "message"] lower then ["(?i)private\\s+message"] else []) ++
  (if !(findAllWith urlMatchAt message.toList).isEmpty then ["https?://[^\\s]+"] else []) ++
  (if containsSub "telegram.me".toList lower then ["(?i)telegram\\.me"] else []) ++
  (if containsSub "whatsapp.com".toList lower then ["(?i)whatsapp\\.com"] else []) ++
  (if message.length > 500 then ["excessive_length"] else []) ++
  (if countChar '!' message > 5 then ["excessive_punctuation"] else []) ++
  (if ((lowerList message.toList).dedup.length : ℚ) / (max 1 message.length : ℕ) < 3/10
   then ["low_diversity"] else [])

/-- The spam score map of `detect_spam` (line 255): `min(1.0, count / 5)`. -/
def spam_score_formula (indicatorCount : ℕ) : ℚ :=
  pyMin 1 ((indicatorCount : ℚ) / 5)

/-- The dict `ChatAnalysisWorker.detect_spam` returns. -/
structure SpamResult where
  is_spam : Bool
  score : ℚ
  confidence : ℚ
  indicators : List String
  risk_level : String

/-- `ChatAnalysisWorker.detect_spam`. -/
def detect_spam (message : String) : SpamResult :=
  let indicators := spam_indicators message
  let score := spam_score_formula indicators.length
  { is_spam := decide (score > 1/2)
  , score := score
  , confidence := pyMin 1 ((indicators.length : ℚ) / 3)
  , indicators := indicators
  , risk_level :=
      if score > 7/10 then "high" else if score > 3/10 then "medium" else "low" }

/-! ### Entity extraction -/

/-- `re.findall(r'@(\w+)', ·)` / `re.findall(r'#(\w+)', ·)`: each match is a
tag character followed by a maximal nonempty `\w+` run; the captured group
drops the tag character. Fuel-structural as `findAllWithF`. -/
def findTaggedF (tag : Char) : Nat → List Char → List String
  | 0, _ => []
  | _, [] => []
  | fuel + 1, c :: cs =>
      if c == tag then
        let run := cs.takeWhile (fun ch => wordChar ch)
        if run.isEmpty then findTaggedF tag fuel cs
        else String.mk run :: findTaggedF tag fuel (cs.drop run.length)
      else findTaggedF tag fuel cs

/-- `re.findall` of a tagged word pattern (see `findTaggedF`). -/
def findTagged (tag : Char) (l : List Char) : List String :=
  findTaggedF tag l.length l

/-- Local-part characters of the e-mail pattern, `[A-Za-z0-9._%+-]`. -/
def emailLocalChar (c : Char) : Bool :=
  c.isAlphanum || c == '.' || c == '_' || c == '%' || c == '+' || c == '-'

/-- Domain characters of the e-mail pattern, `[A-Za-z0-9.-]`. -/
def emailDomainChar (c : Char) : Bool := c.isAlphanum || c == '.' || c == '-'

/-- Approximate match of the e-mail regex
`\b[A-Za-z0-9._%+-]+@[A-Za-z0-9.-]+\.[A-Z|a-z]{2,}\b` at the head of the
input (greedy runs; the `\b` anchors and regex backtracking are not
replicated). Not relied on by any verified property. -/
def emailMatchAt (l : List Char) : Option (List Char) :=
  let localPart := l.takeWhile (fun c => emailLocalChar c)
  if localPart.isEmpty then none
  else
    match l.drop localPart.length with
    | '@' :: rest =>
        let dom := rest.takeWhile (fun c => emailDomainChar c)
        let revTail := dom.reverse.takeWhile (fun c => c.isAlpha)
        match dom.reverse.drop revTail.length with
        | '.' :: _ =>
            if revTail.length ≥ 2 then some (localPart ++ '@' :: dom) else none
        | _ => none
    | _ => none

/-- Take exactly `n` digits from the head of the input. -/
def takeDigitsN : Nat → List Char → Option (List Char × List Char)
  | 0, l => some ([], l)
  | n + 1, c :: cs =>
      if c.isDigit then
        (takeDigitsN n cs).map (fun dr => (c :: dr.1, dr.2))
      else none
  | _ + 1, [] => none

/-- Optional `[-.]` separator of the phone pattern. -/
def phoneSep : List Char → (List Char × List Char)
  | c :: cs => if c == '-' || c == '.' then ([c], cs) else ([], c :: cs)
  | [] => ([], [])

/-- Approximate match of `\b\d{3}[-.]?\d{3}[-.]?\d{4}\b` at the head of the
input (the `\b` anchors are not replicated). Not relied on by any verified
property. -/
def phoneMatchAt (l : List Char) : Option (List Char) := do
  let d1 ← takeDigitsN 3 l
  let s1 := phoneSep d1.2
  let d2 ← takeDigitsN 3 s1.2
  let s2 := phoneSep d2.2
  let d3 ← takeDigitsN 4 s2.2
  pure (d1.1 ++ s1.1 ++ d2.1 ++ s2.1 ++ d3.1)

/-- Base58-like characters of the address pattern `[a-km-zA-HJ-NP-Z1-9]`. -/
def base58Char (c : Char) : Bool :=
  c.isAlphanum && !(c == '0' || c == 'O' || c == 'I' || c == 'l')

/-- Approximate match of `\b[13][a-km-zA-HJ-NP-Z1-9]{25,34}\b` at the head
of the input (greedy run; anchors not replicated). Not relied on by any
verified property. -/
def cryptoMatchAt : List Char → Option (List Char)
  | [] => none
  | c :: rest =>
      if c == '1' || c == '3' then
        let run := rest.takeWhile (fun ch => base58Char ch)
        if 25 ≤ run.length && run.length ≤ 34 then some (c :: run) else none
      else none

/-- The entity dict of `ChatAnalysisWorker.extract_entities`. The code drops
dict keys whose match list is empty; the record keeps every field, an empty
list standing for an absent key. -/
structure Entities where
  mentions : List String
  hashtags : List String
  urls : List String
  emails : List String
  phone_numbers : List String
  crypto_addresses : List String

/-- `ChatAnalysisWorker.extract_entities`. -/
def extract_entities (message : String) : Entities :=
  let l := message.toList
  { mentions := findTagged '@' l
  , hashtags := findTagged '#' l
  , urls := findAllWith urlMatchAt l
  , emails := findAllWith emailMatchAt l
  , phone_numbers := findAllWith phoneMatchAt l
  , crypto_addresses := findAllWith cryptoMatchAt l }

end EEA

namespace EEA

/-! ### Engagement, keywords, language, stats, moderation -/

/-- Emoji character test: the union of the four `\U0001F...` ranges in
`calculate_engagement_score`'s pattern. -/
def emojiChar (c : Char) : Bool :=
  (0x1F600 ≤ c.toNat && c.toNat ≤ 0x1F64F) ||
  (0x1F300 ≤ c.toNat && c.toNat ≤ 0x1F5FF) ||
  (0x1F680 ≤ c.toNat && c.toNat ≤ 0x1F6FF) ||
  (0x1F1E0 ≤ c.toNat && c.toNat ≤ 0x1F1FF)

/-- `ChatAnalysisWorker.calculate_engagement_score` (the code reads the
message out of the payload dict; the validated message string is passed
directly here). -/
def calculate_engagement_score (message : String) : Int :=
  let length : Int := (message.length : Int)
  let lengthAdj : Int :=
    if 50 ≤ length ∧ length ≤ 200 then 10
    else if length > 500 then -10
    else if length < 10 then -5
    else 0
  let questions : Int := min 10 ((countChar '?' message : Int) * 5)
  let exclaims : Int := min 10 ((countChar '!' message : Int) * 2)
  let mentions : Int := min 15 (((findTagged '@' message.toList).length : Int) * 5)
  let hashtags : Int := min 10 (((findTagged '#' message.toList).length : Int) * 3)
  let emojis : Int := min 15 (((message.toList.filter (fun c => emojiChar c)).length : Int) * 3)
  max 0 (min 100 (50 + lengthAdj + questions + exclaims + mentions + hashtags + emojis))

/-- First-occurrence de-duplication (`dict.fromkeys` ordering). -/
def dedupFirstAux (seen : List String) : List String → List String
  | [] => []
  | w :: ws => if w ∈ seen then dedupFirstAux seen ws else w :: dedupFirstAux (w :: seen) ws

/-- `ChatAnalysisWorker.extract_keywords`: tokens longer than 3 characters,
not stop words, de-duplicated keeping first occurrences, first 10. -/
def extract_keywords (message : String) : List String :=
  let words := tokenize_message message
  (dedupFirstAux []
    (words.filter (fun w => decide (3 < w.length) && !(stop_words.contains w)))).take 10

/-- The dict `ChatAnalysisWorker.detect_language` returns. -/
structure LanguageInfo where
  language : String
  confidence : ℚ

/-- `ChatAnalysisWorker.detect_language`. -/
def detect_language (message : String) : LanguageInfo :=
  let words := tokenize_message message
  let englishCount := (words.filter (fun w => w ∈ english_words)).length
  let ratio : ℚ := (englishCount : ℚ) / (max 1 words.length : ℕ)
  if ratio > 1/10 then { language := "en", confidence := pyMin 1 (ratio * 2) }
  else { language := "unknown", confidence := 1/2 }

mutual

/-- Maximal runs of characters satisfying a predicate (mutual helper:
currently outside a run). -/
def countRuns (p : Char → Bool) : List Char → Nat
  | [] => 0
  | c :: cs => if p c then countRunsIn p cs else countRuns p cs

/-- Mutual helper of `countRuns`: currently inside a run. -/
def countRunsIn (p : Char → Bool) : List Char → Nat
  | [] => 1
  | c :: cs => if p c then countRunsIn p cs else 1 + countRuns p cs

end

/-- The dict `ChatAnalysisWorker.get_message_stats` returns
(`re.split(r'[.!?]+', m)` yields one more chunk than separator runs). -/
structure MessageStats where
  character_count : ℕ
  word_count : ℕ
  sentence_count : ℕ
  avg_word_length : ℚ
  uppercase_ratio : ℚ
  punctuation_count : ℕ

/-- `ChatAnalysisWorker.get_message_stats`. -/
def get_message_stats (message : String) : MessageStats :=
  let words := tokenize_message message
  { character_count := message.length
  , word_count := words.length
  , sentence_count := countRuns (fun c => c == '.' || c == '!' || c == '?') message.toList + 1
  , avg_word_length :=
      ((words.map String.length).sum : ℚ) / (max 1 words.length : ℕ)
  , uppercase_ratio :=
      ((message.toList.filter (fun c => c.isUpper)).length : ℚ) / (max 1 message.length : ℕ)
  , punctuation_count :=
      (message.toList.filter (fun c => !wordChar c && !wsChar c)).length }

/-- The dict `ChatAnalysisWorker.get_moderation_flags` returns. -/
structure Moderation where
  flags : List String
  recommended_actions : List String
  requires_human_review : Bool
  auto_moderate : Bool

/-- `ChatAnalysisWorker.get_moderation_flags`. -/
def get_moderation_flags (tox : ToxicityResult) (spam : SpamResult) : Moderation :=
  let flags :=
    (if tox.is_toxic then ["toxic_content"] else []) ++
    (if spam.is_spam then ["spam_content"] else [])
  let actions :=
    (if tox.is_toxic then
      (if tox.level == "high" then ["auto_remove"] else ["flag_for_review"]) else []) ++
    (if spam.is_spam then ["flag_for_review"] else [])
  { flags := flags
  , recommended_actions := actions
  , requires_human_review := decide (flags.length > 0)
  , auto_moderate := actions.contains "auto_remove" }

/-- `ChatAnalysisWorker.generate_insights`. -/
def chat_generate_insights (sentiment : SentimentResult) (tox : ToxicityResult)
    (engagement : Int) : List String :=
  (if sentiment.label == "positive" && decide (engagement > 70)
   then ["High-engagement positive message - potential viral content"] else []) ++
  (if sentiment.label == "negative" && decide (sentiment.confidence > 7/10)
   then ["Strong negative sentiment detected - monitor for escalation"] else []) ++
  (if tox.is_toxic then ["Toxic content detected - requires moderation"] else []) ++
  (if engagement > 80 then ["High engagement potential - consider promoting"]
   else if engagement < 30 then ["Low engagement - content may need improvement"]
   else [])

/-! ### Chat `process_event` -/

/-- `ChatAnalysisWorker.validate_event`: required fields `message`, `user`,
each present with a truthy value. -/
def chat_validate_event (data : Payload) : Bool :=
  ["message", "user"].all (fun f => presentTruthy data f)

/-- A payload value used where a `str` is required; a number raises
(`re` and `str` methods on a non-string). -/
def strOfValue : DataValue → Except String String
  | .str s => .ok s
  | .num q => .error ("TypeError: expected string or bytes-like object, got " ++ toString q)

/-- The `analysis` sub-dict of the chat worker's processed result. -/
structure ChatAnalysis where
  sentiment : SentimentResult
  toxicity : ToxicityResult
  spam : SpamResult
  keywords : List String
  entities : Entities
  language : LanguageInfo
  engagement_score : Int
  message_stats : MessageStats

/-- The success-path result dict of `ChatAnalysisWorker.process_event`. -/
structure ChatProcessed where
  id : String
  type : String
  original_data : Payload
  message : String
  user : DataValue
  channel : DataValue
  platform : DataValue
  analysis : ChatAnalysis
  moderation : Moderation
  insights : List String

/-- The `try` block of `ChatAnalysisWorker.process_event`. -/
def chat_inner (ts : Nat) (env : Envelope) : Except String ChatProcessed :=
  match getData env with
  | .error e => .error e
  | .ok data =>
      if chat_validate_event data then
        match strOfValue (pgetD data "message" (.str "")) with
        | .error e => .error e
        | .ok message =>
            let sentiment := analyze_sentiment message
            let tox := detect_toxicity message
            let spam := detect_spam message
            let engagement := calculate_engagement_score message
            .ok { id := "chat_" ++ toString ts, type := "chat_analysis", original_data := data
                , message := message
                , user := pgetD data "user" (.str "Unknown")
                , channel := pgetD data "channel" (.str "general")
                , platform := pgetD data "platform" (.str "unknown")
                , analysis :=
                    { sentiment := sentiment, toxicity := tox, spam := spam
                    , keywords := extract_keywords message
                    , entities := extract_entities message
                    , language := detect_language message
                    , engagement_score := engagement
                    , message_stats := get_message_stats message }
                , moderation := get_moderation_flags tox spam
                , insights := chat_generate_insights sentiment tox engagement }
      else .error "Invalid chat event data"

/-- `ChatAnalysisWorker.process_event`. -/
def chat_process_event (ts : Nat) (env : Envelope) : WResult ChatProcessed :=
  match chat_inner ts env with
  | .ok r => .processed r
  | .error e => .errored (mkError "chat_error_" "chat_analysis_error" ts e env)

end EEA

namespace EEA

/-! ### Blockchain Worker (`blockchain_worker.py`)
The hash-derived `get_market_data` / `get_token_info` / risk-score
stand-ins are placeholders for an external pricing service; they enter the
model as an injected `Providers` record with the same interface. -/

/-- Market data for an NFT collection (`get_market_data`'s dict). -/
structure MarketData where
  floor_price : ℚ
  volume_24h : ℚ
  trend : String

/-- Token price info (`get_token_info`'s dict). -/
structure TokenInfo where
  name : String
  symbol : String
  price_usd : ℚ

/-- The injected external lookups (market data by collection, token info by
token, transfer risk by address pair). -/
structure Providers where
  market : DataValue → MarketData
  token : DataValue → TokenInfo
  risk : DataValue → DataValue → ℚ

/-- `BlockchainWorker.validate_event`: `event_type` key present (presence
only, no truthiness check). -/
def blockchain_validate_event (data : Payload) : Bool :=
  ["event_type"].all (fun f => (pget data f).isSome)

/-- Python `float(v)`: a number passes through; a string must parse as a
(possibly signed, possibly decimal-pointed) numeral, else `float()` raises. -/
def parseFloatChars (l : List Char) : Option ℚ :=
  let core (l : List Char) : Option ℚ :=
    match l with
    | [] => none
    | _ =>
        let intPart := l.takeWhile (fun c => c.isDigit)
        match l.drop intPart.length with
        | [] => if intPart.isEmpty then none else some (digitsToNat intPart : ℚ)
        | '.' :: rest =>
            let fracPart := rest.takeWhile (fun c => c.isDigit)
            if rest.drop fracPart.length ≠ [] then none
            else if intPart.isEmpty && fracPart.isEmpty then none
            else some ((digitsToNat intPart : ℚ) +
              (digitsToNat fracPart : ℚ) / (10 ^ fracPart.length : ℕ))
        | _ => none
  match skipWs l with
  | '-' :: rest => (core ((skipWs rest.reverse).reverse)).map (fun q => -q)
  | '+' :: rest => core ((skipWs rest.reverse).reverse)
  | other => core ((skipWs other.reverse).reverse)

/-- `float(data.get(k, 0))` with the failure `float()` raises on a
non-numeric string. -/
def floatOfValue : DataValue → Except String ℚ
  | .num q => .ok q
  | .str s =>
      match parseFloatChars s.toList with
      | some q => .ok q
      | none => .error ("could not convert string to float: '" ++ s ++ "'")

/-- The premium computation of `process_nft_sale` (lines 113–116):
`(price − floor_price) / floor_price × 100` when `floor_price > 0`, else 0. -/
def premiumPercentage (price floor_price : ℚ) : ℚ :=
  if floor_price > 0 then ((price - floor_price) / floor_price) * 100 else 0

/-- `BlockchainWorker.categorize_price`. -/
def categorize_price (premium_percentage : ℚ) : String :=
  if premium_percentage > 50 then "premium"
  else if premium_percentage > 0 then "above_floor"
  else if premium_percentage > -20 then "near_floor"
  else "below_floor"

/-- `BlockchainWorker.categorize_swap_size`. -/
def categorize_swap_size (usd_value : ℚ) : String :=
  if usd_value > 100000 then "whale"
  else if usd_value > 10000 then "large"
  else if usd_value > 1000 then "medium"
  else "small"

/-- `BlockchainWorker.generate_nft_insights`. -/
def generate_nft_insights (price _floor_price premium : ℚ) : List String :=
  (if premium > 100 then ["Exceptional premium sale - potential rare trait"]
   else if premium > 50 then ["High premium sale - strong buyer interest"]
   else if premium < -10 then ["Below floor sale - potential distressed seller"]
   else []) ++
  (if price > 10 then ["High-value transaction - monitor for market impact"] else [])

/-- `BlockchainWorker.analyze_transfer_pattern`'s `amount_category`. -/
def transfer_amount_category (amount : ℚ) : String :=
  if amount > 1000 then "large" else if amount > 100 then "medium" else "small"

/-- `BlockchainWorker.generate_transfer_insights`. -/
def generate_transfer_insights (usd_value risk_score : ℚ) : List String :=
  (if usd_value > 100000 then ["Large transfer detected - potential whale movement"] else []) ++
  (if risk_score > 80 then ["High risk transfer - review for compliance"] else [])

/-- `BlockchainWorker.generate_swap_insights`. -/
def generate_swap_insights (usd_value slippage : ℚ) : List String :=
  (if slippage > 5 then ["High slippage detected - large trade or low liquidity"] else []) ++
  (if usd_value > 50000 then ["Large swap - potential market impact"] else [])

/-- A blockchain sub-analyzer's result dict: the success shape, or the
small error dict its own `except` handler returns (the sub-failure shape
of `process_nft_sale` / `process_token_transfer` / `process_defi_swap`). -/
inductive SubResult where
  | nftOk (sale_id : String) (collection : DataValue) (price : ℚ) (floor_price : ℚ)
      (premium_percentage : ℚ) (price_category : String) (market_trend : String)
      (insights : List String)
  | nftErr (sale_id : String) (error : String) (collection : DataValue) (price : DataValue)
  | transferOk (transfer_id : String) (amount : ℚ) (usd_value : ℚ)
      (amount_category : String) (risk_score : ℚ) (insights : List String)
  | transferErr (transfer_id : String) (error : String) (token : DataValue) (amount : DataValue)
  | swapOk (swap_id : String) (amount_in amount_out usd_value_in usd_value_out : ℚ)
      (slippage_percentage : ℚ) (swap_category : String) (insights : List String)
  | swapErr (swap_id : String) (error : String) (dex : DataValue)

/-- Does a sub-result carry the internal `error` field its handler adds? -/
def SubResult.errorField : SubResult → Option String
  | .nftErr _ e _ _ => some e
  | .transferErr _ e _ _ => some e
  | .swapErr _ e _ => some e
  | _ => none

/-- `BlockchainWorker.process_nft_sale`: its internal `try/except` catches
everything (a `float()` failure on `price` included) and returns the small
error dict instead of raising. -/
def process_nft_sale (pr : Providers) (ts : Nat) (data : Payload) : SubResult :=
  match floatOfValue (pgetD data "price" (.num 0)) with
  | .error e =>
      .nftErr ("nft_sale_error_" ++ toString ts) e
        (pgetD data "collection" (.str "Unknown")) (pgetD data "price" (.num 0))
  | .ok price =>
      let collection := pgetD data "collection" (.str "Unknown")
      let m := pr.market collection
      let floor := m.floor_price
      let premium := premiumPercentage price floor
      .nftOk ("nft_sale_" ++ toString ts) collection price floor premium
        (categorize_price premium) m.trend (generate_nft_insights price floor premium)

/-- `BlockchainWorker.process_token_transfer` (same catch-all shape). -/
def process_token_transfer (pr : Providers) (ts : Nat) (data : Payload) : SubResult :=
  match floatOfValue (pgetD data "amount" (.num 0)) with
  | .error e =>
      .transferErr ("token_transfer_error_" ++ toString ts) e
        (pgetD data "token" (.str "Unknown")) (pgetD data "amount" (.num 0))
  | .ok amount =>
      let tokenInfo := pr.token (pgetD data "token" (.str "Unknown"))
      let usd := if tokenInfo.price_usd ≠ 0 then amount * tokenInfo.price_usd else 0
      let risk := pr.risk (pgetD data "from" (.str "Unknown")) (pgetD data "to" (.str "Unknown"))
      .transferOk ("token_transfer_" ++ toString ts) amount usd
        (transfer_amount_category amount) risk (generate_transfer_insights usd risk)

/-- `BlockchainWorker.process_defi_swap` (same catch-all shape;
`amount_in` is converted before `amount_out`, matching evaluation order). -/
def process_defi_swap (pr : Providers) (ts : Nat) (data : Payload) : SubResult :=
  match floatOfValue (pgetD data "amount_in" (.num 0)) with
  | .error e => .swapErr ("defi_swap_error_" ++ toString ts) e (pgetD data "dex" (.str "Unknown"))
  | .ok amount_in =>
      match floatOfValue (pgetD data "amount_out" (.num 0)) with
      | .error e =>
          .swapErr ("defi_swap_error_" ++ toString ts) e (pgetD data "dex" (.str "Unknown"))
      | .ok amount_out =>
          let tin := pr.token (pgetD data "token_in" (.str "Unknown"))
          let tout := pr.token (pgetD data "token_out" (.str "Unknown"))
          let usd_in := amount_in * tin.price_usd
          let usd_out := amount_out * tout.price_usd
          let slippage := if usd_in > 0 then ((usd_in - usd_out) / usd_in) * 100 else 0
          .swapOk ("defi_swap_" ++ toString ts) amount_in amount_out usd_in usd_out
            slippage (categorize_swap_size usd_in) (generate_swap_insights usd_in slippage)

/-- The success-path result dict of `BlockchainWorker.process_event`: the
sub-analyzer's dict updated with the worker metadata. -/
structure BlockProcessed where
  id : String
  type : String
  original_data : Payload
  sub : SubResult

/-- The `try` block of `BlockchainWorker.process_event`: validate, dispatch
on `event_type`, raise on an unknown sub-type. -/
def blockchain_inner (pr : Providers) (ts : Nat) (env : Envelope) :
    Except String BlockProcessed :=
  match getData env with
  | .error e => .error e
  | .ok data =>
      if blockchain_validate_event data then
        let eventType := pgetD data "event_type" (.str "unknown")
        let mkOk : SubResult → Except String BlockProcessed := fun sub =>
          .ok { id := "blockchain_" ++ toString ts, type := "blockchain_event"
              , original_data := data, sub := sub }
        if eventType == DataValue.str "nft_sale" then
          mkOk (process_nft_sale pr ts data)
        else if eventType == DataValue.str "token_transfer" then
          mkOk (process_token_transfer pr ts data)
        else if eventType == DataValue.str "defi_swap" then
          mkOk (process_defi_swap pr ts data)
        else
          .error ("Unknown blockchain event type: " ++ eventType.show)
      else .error "Invalid blockchain event data"

/-- `BlockchainWorker.process_event`. -/
def blockchain_process_event (pr : Providers) (ts : Nat) (env : Envelope) :
    WResult BlockProcessed :=
  match blockchain_inner pr ts env with
  | .ok r => .processed r
  | .error e => .errored (mkError "blockchain_error_" "blockchain_error" ts e env)

end EEA

namespace EEA

/-! ### Definitions used by the verification statements -/

/-- Is a terminal result the processed (success) variant? -/
def WResult.isProcessed {α : Type} : WResult α → Bool
  | .processed _ => true
  | .errored _ => false

/-- Is a terminal result the error variant? -/
def WResult.isErrored {α : Type} : WResult α → Bool
  | .processed _ => false
  | .errored _ => true

/-- The `lead_score` of a processed lead result, if any. -/
def WResult.leadScoreOf : WResult LeadProcessed → Option Int
  | .processed r => some r.lead_score
  | .errored _ => none

/-- The sentiment-score formula in the spec's words: `clamp((positive_count −
negative_count)/word_count, −1, 1)`, with score 0 when no sentiment words
match. Stated from the spec, to be compared with `analyze_sentiment`. -/
def spec_sentiment_score (message : String) : ℚ :=
  let words := tokenize_message message
  let positive_count := (words.filter (fun w => w ∈ positive_words)).length
  let negative_count := (words.filter (fun w => w ∈ negative_words)).length
  if positive_count + negative_count = 0 then 0
  else pyMax (-1) (pyMin 1 (((positive_count : ℚ) - (negative_count : ℚ)) / (words.length : ℚ)))

/-- A constant stand-in provider (used to instantiate universally quantified
provider arguments at concrete inputs). -/
def constProviders : Providers :=
  { market := fun _ => { floor_price := 1, volume_24h := 0, trend := "neutral" }
  , token := fun _ => { name := "Unknown", symbol := "UNK", price_usd := 0 }
  , risk := fun _ _ => 0 }

/-- Spec §8 scenario B: the concrete fallback-scoring lead. -/
def scenarioB : Payload :=
  [ ("email", .str "x@acmecorp.com"), ("company_size", .str "1000+ employees")
  , ("title", .str "VP of Sales"), ("source", .str "linkedin") ]

/-- Spec §8 scenario A: the concrete chat message. -/
def scenarioA : String := "good great amazing!!! @alice #win"

/-- A ten-word message with one positive word: its sentiment score is
exactly the 0.1 label boundary. -/
def boundaryMessage : String := "good a1 a2 a3 a4 a5 a6 a7 a8 a9"

/-- An AI response whose JSON `score` is out of the 0..100 range. -/
def aiResponse150 : String := "\x7b\"score\": 150\x7d"

/-- A valid lead envelope (non-empty `name` and `email`). -/
def leadEnvValid : Envelope :=
  ⟨some [("name", .str "Ada"), ("email", .str "ada@acme.com")], none⟩

/-- A blockchain NFT-sale payload whose `price` is a non-numeric string. -/
def nftBadPricePayload : Payload :=
  [("event_type", .str "nft_sale"), ("price", .str "abc")]

end EEA

namespace EEA

/-- C1: For every input event envelope, each worker's `process_event`
(lead scoring, blockchain, chat analysis) returns exactly one terminal
result and never raises: either a processed result, or an error result in
the worker's error-envelope shape (`*_error` type tag, `error` string,
`original_data = event_data.get("data", {})`); the two cases are mutually
exclusive. -/
theorem process_event_exactly_one_terminal_result
    (ai : Payload → Except String String) (pr : Providers) (ts : Nat) (env : Envelope) :
    (Xor' (∃ r, lead_process_event ai ts env = .processed r)
          (∃ e, lead_process_event ai ts env = .errored e) ∧
     ∀ e, lead_process_event ai ts env = .errored e →
       e.type = "lead_scoring_error" ∧ e.id = "lead_error_" ++ toString ts ∧
       e.original_data = env.data.getD []) ∧
    (Xor' (∃ r, blockchain_process_event pr ts env = .processed r)
          (∃ e, blockchain_process_event pr ts env = .errored e) ∧
     ∀ e, blockchain_process_event pr ts env = .errored e →
       e.type = "blockchain_error" ∧ e.id = "blockchain_error_" ++ toString ts ∧
       e.original_data = env.data.getD []) ∧
    (Xor' (∃ r, chat_process_event ts env = .processed r)
          (∃ e, chat_process_event ts env = .errored e) ∧
     ∀ e, chat_process_event ts env = .errored e →
       e.type = "chat_analysis_error" ∧ e.id = "chat_error_" ++ toString ts ∧
       e.original_data = env.data.getD []) := by
  refine ⟨⟨?_, ?_⟩, ⟨?_, ?_⟩, ⟨?_, ?_⟩⟩
  · cases h : lead_inner ai ts env with
    | ok r =>
        left
        exact ⟨⟨r, by simp [lead_process_event, h]⟩,
          by rintro ⟨e, he⟩; simp [lead_process_event, h] at he⟩
    | error m =>
        right
        exact ⟨⟨mkError "lead_error_" "lead_scoring_error" ts m env,
            by simp [lead_process_event, h]⟩,
          by rintro ⟨r, hr⟩; simp [lead_process_event, h] at hr⟩
  · intro e he
    cases h : lead_inner ai ts env with
    | ok r => simp [lead_process_event, h] at he
    | error m =>
        simp [lead_process_event, h] at he
        rw [← he]
        exact ⟨rfl, rfl, rfl⟩
  · cases h : blockchain_inner pr ts env with
    | ok r =>
        left
        exact ⟨⟨r, by simp [blockchain_process_event, h]⟩,
          by rintro ⟨e, he⟩; simp [blockchain_process_event, h] at he⟩
    | error m =>
        right
        exact ⟨⟨mkError "blockchain_error_" "blockchain_error" ts m env,
            by simp [blockchain_process_event, h]⟩,
          by rintro ⟨r, hr⟩; simp [blockchain_process_event, h] at hr⟩
  · intro e he
    cases h : blockchain_inner pr ts env with
    | ok r => simp [blockchain_process_event, h] at he
    | error m =>
        simp [blockchain_process_event, h] at he
        rw [← he]
        exact ⟨rfl, rfl, rfl⟩
  · cases h : chat_inner ts env with
    | ok r =>
        left
        exact ⟨⟨r, by simp [chat_process_event, h]⟩,
          by rintro ⟨e, he⟩; simp [chat_process_event, h] at he⟩
    | error m =>
        right
        exact ⟨⟨mkError "chat_error_" "chat_analysis_error" ts m env,
            by simp [chat_process_event, h]⟩,
          by rintro ⟨r, hr⟩; simp [chat_process_event, h] at hr⟩
  · intro e he
    cases h : chat_inner ts env with
    | ok r => simp [chat_process_event, h] at he
    | error m =>
        simp [chat_process_event, h] at he
        rw [← he]
        exact ⟨rfl, rfl, rfl⟩

/-- C2: `categorize_lead` assigns `hot` exactly when the score is at least
80, `warm` exactly when it is in `[60, 80)`, `cold` exactly below 60, and
the fallback path's inline category expression agrees with it at every
score. -/
theorem categorize_lead_thresholds (s : Int) :
    (categorize_lead s = "hot" ↔ 80 ≤ s) ∧
    (categorize_lead s = "warm" ↔ 60 ≤ s ∧ s < 80) ∧
    (categorize_lead s = "cold" ↔ s < 60) ∧
    fallback_category_of s = categorize_lead s := by
  unfold categorize_lead fallback_category_of
  split_ifs with h1 h2 <;> simp_all <;> omega

/-- C3: on the §8 scenario-B lead the fallback scorer adds +5 (business
email), +20 (enterprise size), +15 (title), +10 (source) to the base 50,
yielding 100 after clamping, category `hot`. -/
theorem fallback_scoring_scenarioB :
    emailAdjustment "x@acmecorp.com" = 5 ∧
    companySizeAdjustment "1000+ employees" = 20 ∧
    titleAdjustment "vp of sales" = 15 ∧
    sourceAdjustment "linkedin" = 10 ∧
    fallback_score scenarioB = .ok (max 0 (min 100 (50 + 5 + 20 + 15 + 10))) ∧
    fallback_score scenarioB = .ok 100 ∧
    (fallback_score scenarioB).map fallback_category_of = .ok "hot" :=
  ⟨rfl, rfl, rfl, rfl, rfl, rfl, rfl⟩

/-- C5: the NFT premium is `(price − floor)/floor × 100` for a positive
floor and 0 otherwise; `categorize_price` returns `premium` exactly above
50, `above_floor` exactly on `(0, 50]`, `near_floor` exactly on `(−20, 0]`,
and `below_floor` exactly at or below −20; in particular price 15 over
floor 10 gives premium 50 (`above_floor`), and floor 0 gives premium 0
(`near_floor`). -/
theorem premium_and_price_category (q price floor_price : ℚ) :
    (premiumPercentage price floor_price =
      if floor_price > 0 then ((price - floor_price) / floor_price) * 100 else 0) ∧
    (categorize_price q = "premium" ↔ 50 < q) ∧
    (categorize_price q = "above_floor" ↔ 0 < q ∧ q ≤ 50) ∧
    (categorize_price q = "near_floor" ↔ -20 < q ∧ q ≤ 0) ∧
    (categorize_price q = "below_floor" ↔ q ≤ -20) ∧
    premiumPercentage 15 10 = 50 ∧
    categorize_price (premiumPercentage 15 10) = "above_floor" ∧
    premiumPercentage 15 0 = 0 ∧
    categorize_price (premiumPercentage 15 0) = "near_floor" := by
  refine ⟨rfl, ?_, ?_, ?_, ?_, by norm_num [premiumPercentage],
      by norm_num [premiumPercentage, categorize_price],
      by norm_num [premiumPercentage],
      by norm_num [premiumPercentage, categorize_price]⟩ <;>
  · unfold categorize_price
    split_ifs with h1 h2 h3 <;> simp_all <;> (try constructor) <;> (try intro hq) <;> linarith

end EEA

namespace EEA

set_option maxHeartbeats 1600000 in
/-- C4: the sentiment score equals the spec formula
`clamp((pos − neg)/word_count, −1, 1)` (0 with label `neutral` when no
sentiment words match), and the ±0.1 label boundaries are strict: `positive`
exactly above 0.1, `negative` exactly below −0.1, `neutral` exactly on
`[−0.1, 0.1]`; a ten-word message with one positive word scores exactly 0.1
and is labelled `neutral`. -/
theorem sentiment_formula_and_boundaries (message : String) :
    (analyze_sentiment message).score = spec_sentiment_score message ∧
    ((analyze_sentiment message).label = "positive" ↔
      1/10 < (analyze_sentiment message).score) ∧
    ((analyze_sentiment message).label = "negative" ↔
      (analyze_sentiment message).score < -(1/10)) ∧
    ((analyze_sentiment message).label = "neutral" ↔
      -(1/10) ≤ (analyze_sentiment message).score ∧
        (analyze_sentiment message).score ≤ 1/10) ∧
    (analyze_sentiment boundaryMessage).score = 1/10 ∧
    (analyze_sentiment boundaryMessage).label = "neutral" := by
  refine ⟨?_, ?_, ?_, ?_, ?_, ?_⟩
  · rfl
  · simp only [analyze_sentiment, pyMin, pyMax]
    split_ifs <;> simp_all <;> (try constructor) <;> (try intro hq) <;> linarith
  · simp only [analyze_sentiment, pyMin, pyMax]
    split_ifs <;> simp_all <;> (try constructor) <;> (try intro hq) <;> linarith
  · simp only [analyze_sentiment, pyMin, pyMax]
    split_ifs <;> simp_all <;> (try constructor) <;> (try intro hq) <;> linarith
  · have hpos : ((tokenize_message boundaryMessage).filter
        (fun w => w ∈ positive_words)).length = 1 := by decide
    have hneg : ((tokenize_message boundaryMessage).filter
        (fun w => w ∈ negative_words)).length = 0 := by decide
    have hlen : (tokenize_message boundaryMessage).length = 10 := by decide
    simp only [analyze_sentiment, hpos, hneg, hlen]
    norm_num [pyMin, pyMax]
  · have hpos : ((tokenize_message boundaryMessage).filter
        (fun w => w ∈ positive_words)).length = 1 := by decide
    have hneg : ((tokenize_message boundaryMessage).filter
        (fun w => w ∈ negative_words)).length = 0 := by decide
    have hlen : (tokenize_message boundaryMessage).length = 10 := by decide
    simp only [analyze_sentiment, hpos, hneg, hlen]
    norm_num [pyMin, pyMax]

/-- C6 counterexample: the §8 scenario-A message is 33 characters long, so
the +10 optimal-length bonus (which requires 50–200 characters) does not
apply: the engagement score is 64, not the 74 the claim's arithmetic
(50 + 10 + 6 + 5 + 3) yields. -/
theorem engagement_scenarioA_no_length_bonus :
    scenarioA.length = 33 ∧
    ¬(50 ≤ scenarioA.length ∧ scenarioA.length ≤ 200) ∧
    calculate_engagement_score scenarioA = 64 ∧
    calculate_engagement_score scenarioA ≠ 50 + 10 + 6 + 5 + 3 := by decide

/-- C6 (amended): scenario A has sentiment label `positive`,
`entities.mentions = ["alice"]`, `entities.hashtags = ["win"]`, and
engagement score `50 + 0 (length 33: no bonus) + 0 (questions) +
6 (exclamations) + 5 (mentions) + 3 (hashtags) + 0 (emojis) = 64`. -/
theorem chat_scenarioA_analysis :
    (analyze_sentiment scenarioA).label = "positive" ∧
    (extract_entities scenarioA).mentions = ["alice"] ∧
    (extract_entities scenarioA).hashtags = ["win"] ∧
    calculate_engagement_score scenarioA = 50 + 0 + 0 + 6 + 5 + 3 + 0 := by
  refine ⟨?_, by decide, by decide, by decide⟩
  have hpos : ((tokenize_message scenarioA).filter
      (fun w => w ∈ positive_words)).length = 3 := by decide
  have hneg : ((tokenize_message scenarioA).filter
      (fun w => w ∈ negative_words)).length = 0 := by decide
  have hlen : (tokenize_message scenarioA).length = 5 := by decide
  simp only [analyze_sentiment, hpos, hneg, hlen]
  norm_num [pyMin, pyMax]

/-- C8: the toxicity score `min(1, toxic_count/word_count × 10)` is
monotone non-decreasing in the matched toxic-word count at fixed word
count, and the spam score `min(1, indicators/5)` is monotone non-decreasing
in the indicator count. -/
theorem toxicity_spam_scores_monotone (tc1 tc2 wc n1 n2 : ℕ)
    (htc : tc1 ≤ tc2) (hn : n1 ≤ n2) :
    toxicity_score_formula tc1 wc ≤ toxicity_score_formula tc2 wc ∧
    spam_score_formula n1 ≤ spam_score_formula n2 := by
  constructor
  · have hden : (0:ℚ) < ((max 1 wc : ℕ) : ℚ) := by
      have h1 : (1:ℕ) ≤ max 1 wc := le_max_left _ _
      exact_mod_cast Nat.lt_of_lt_of_le Nat.zero_lt_one h1
    have hx : (tc1 : ℚ) / ((max 1 wc : ℕ) : ℚ) * 10 ≤ (tc2 : ℚ) / ((max 1 wc : ℕ) : ℚ) * 10 := by
      have hnum : (tc1 : ℚ) ≤ (tc2 : ℚ) := by exact_mod_cast htc
      gcongr
    unfold toxicity_score_formula pyMin
    split_ifs <;> linarith
  · have hx : (n1 : ℚ) / 5 ≤ (n2 : ℚ) / 5 := by
      have hnum : (n1 : ℚ) ≤ (n2 : ℚ) := by exact_mod_cast hn
      gcongr
    unfold spam_score_formula pyMin
    split_ifs <;> linarith

/-- C8 witness: one more matched toxic word at word count 5, and one more
spam indicator, never decrease the scores. -/
theorem toxicity_spam_scores_monotone_witness :
    toxicity_score_formula 1 5 ≤ toxicity_score_formula 2 5 ∧
    spam_score_formula 1 ≤ spam_score_formula 2 :=
  toxicity_spam_scores_monotone 1 2 5 1 2 (by norm_num) (by norm_num)

end EEA

namespace EEA

/-- C7: a payload failing its worker's required-field predicate (lead:
truthy `name` and `email`; chat: truthy `message` and `user`; blockchain:
`event_type` key present) short-circuits `process_event` to the error
result — for every AI function / provider, so no analysis runs — and a
blockchain payload whose `event_type` is none of `nft_sale`,
`token_transfer`, `defi_swap` likewise yields the unknown-event-type error
result for every provider. -/
theorem validation_short_circuits_to_error :
    (∀ (ai : Payload → Except String String) (ts : Nat) (u : Option Int) (p : Payload),
       lead_validate_event p = false →
       lead_process_event ai ts ⟨some p, u⟩ =
         .errored { id := "lead_error_" ++ toString ts, type := "lead_scoring_error"
                  , error := "Invalid lead data: missing required fields"
                  , original_data := p }) ∧
    (∀ (ts : Nat) (u : Option Int) (p : Payload),
       chat_validate_event p = false →
       chat_process_event ts ⟨some p, u⟩ =
         .errored { id := "chat_error_" ++ toString ts, type := "chat_analysis_error"
                  , error := "Invalid chat event data", original_data := p }) ∧
    (∀ (pr : Providers) (ts : Nat) (u : Option Int) (p : Payload),
       blockchain_validate_event p = false →
       blockchain_process_event pr ts ⟨some p, u⟩ =
         .errored { id := "blockchain_error_" ++ toString ts, type := "blockchain_error"
                  , error := "Invalid blockchain event data", original_data := p }) ∧
    (∀ (pr : Providers) (ts : Nat) (u : Option Int) (p : Payload) (s : String),
       blockchain_validate_event p = true →
       pgetD p "event_type" (.str "unknown") = .str s →
       s ∉ (["nft_sale", "token_transfer", "defi_swap"] : List String) →
       blockchain_process_event pr ts ⟨some p, u⟩ =
         .errored { id := "blockchain_error_" ++ toString ts, type := "blockchain_error"
                  , error := "Unknown blockchain event type: " ++ s
                  , original_data := p }) := by
  refine ⟨?_, ?_, ?_, ?_⟩
  · intro ai ts u p hv
    simp [lead_process_event, lead_inner, getData, hv, mkError]
  · intro ts u p hv
    simp [chat_process_event, chat_inner, getData, hv, mkError]
  · intro pr ts u p hv
    simp [blockchain_process_event, blockchain_inner, getData, hv, mkError]
  · intro pr ts u p s hv hs hns
    have h1 : s ≠ "nft_sale" := fun h => hns (by simp [h])
    have h2 : s ≠ "token_transfer" := fun h => hns (by simp [h])
    have h3 : s ≠ "defi_swap" := fun h => hns (by simp [h])
    simp [blockchain_process_event, blockchain_inner, getData, hv, hs, h1, h2, h3,
      mkError, DataValue.show]

/-- C7 witness: a lead payload with an empty name, an empty chat payload, a
payload with no `event_type`, and an `event_type` of `"bogus"`, all at
timestamp 0, produce the four error results. -/
theorem validation_short_circuits_to_error_witness :
    lead_validate_event [("name", DataValue.str "")] = false ∧
    lead_process_event (fun _ => .error "down") 0 ⟨some [("name", DataValue.str "")], none⟩ =
      .errored { id := "lead_error_0", type := "lead_scoring_error"
               , error := "Invalid lead data: missing required fields"
               , original_data := [("name", DataValue.str "")] } ∧
    chat_process_event 0 ⟨some [], none⟩ =
      .errored { id := "chat_error_0", type := "chat_analysis_error"
               , error := "Invalid chat event data", original_data := [] } ∧
    blockchain_process_event constProviders 0 ⟨some [("price", DataValue.num 1)], none⟩ =
      .errored { id := "blockchain_error_0", type := "blockchain_error"
               , error := "Invalid blockchain event data"
               , original_data := [("price", DataValue.num 1)] } ∧
    blockchain_process_event constProviders 0 ⟨some [("event_type", DataValue.str "bogus")], none⟩ =
      .errored { id := "blockchain_error_0", type := "blockchain_error"
               , error := "Unknown blockchain event type: bogus"
               , original_data := [("event_type", DataValue.str "bogus")] } :=
  ⟨by decide,
   validation_short_circuits_to_error.1 (fun _ => .error "down") 0 none
     [("name", DataValue.str "")] (by decide),
   validation_short_circuits_to_error.2.1 0 none [] (by decide),
   validation_short_circuits_to_error.2.2.1 constProviders 0 none
     [("price", DataValue.num 1)] (by decide),
   validation_short_circuits_to_error.2.2.2 constProviders 0 none
     [("event_type", DataValue.str "bogus")] "bogus" (by decide) rfl (by decide)⟩

/-- C9 counterexample: an AI response `{"score": 150}` on a valid lead
produces a ProcessedResult whose `lead_score` is 150, outside 0..100 — the
JSON/regex extraction path never clamps. -/
theorem ai_path_score_unclamped :
    (lead_process_event (fun _ => .ok aiResponse150) 0 leadEnvValid).leadScoreOf = some 150 ∧
    ¬((150 : Int) ≤ 100) := ⟨rfl, by decide⟩

/-- C9 (amended): the rule-based fallback score is always clamped to
0..100, and when both the JSON parse and the regex fall through, the
default extracted score is 50; scores extracted from the AI response are
passed through unclamped and may lie outside 0..100. -/
theorem fallback_score_in_range (p : Payload) (s : Int)
    (h : fallback_score p = .ok s) :
    (0 ≤ s ∧ s ≤ 100) ∧
    (∀ t : String, jsonScoreOf t = none → regexScore t.toList = none →
      extract_score_from_analysis t = 50) := by
  constructor
  · unfold fallback_score at h
    cases hf : fallbackFields p with
    | error e => rw [hf] at h; simp [Except.map] at h
    | ok f =>
        rw [hf] at h
        simp [Except.map] at h
        omega
  · intro t h1 h2
    unfold extract_score_from_analysis
    rw [h1, h2]

/-- C9 witness: scenario B's fallback score 100 is within 0..100, and an
unparseable response defaults to 50. -/
theorem fallback_score_in_range_witness :
    ((0 : Int) ≤ 100 ∧ (100 : Int) ≤ 100) ∧
    extract_score_from_analysis "hello" = 50 :=
  ⟨(fallback_score_in_range scenarioB 100 rfl).1,
   (fallback_score_in_range scenarioB 100 rfl).2 "hello" rfl rfl⟩

/-- C10: when the NFT sub-analyzer's `float(price)` conversion fails, its
internal handler returns the small error dict and `process_event` still
completes the success path: the result is a ProcessedResult with type
`blockchain_event` and id `blockchain_<ts>` (not the `blockchain_error`
error envelope), carrying the sub-analyzer's `error` string inside. -/
theorem nft_sub_error_not_surfaced (pr : Providers) (ts : Nat) (u : Option Int)
    (p : Payload) (e : String)
    (hv : blockchain_validate_event p = true)
    (ht : pgetD p "event_type" (.str "unknown") = .str "nft_sale")
    (hf : floatOfValue (pgetD p "price" (.num 0)) = .error e) :
    blockchain_process_event pr ts ⟨some p, u⟩ =
      .processed { id := "blockchain_" ++ toString ts, type := "blockchain_event"
                 , original_data := p
                 , sub := .nftErr ("nft_sale_error_" ++ toString ts) e
                     (pgetD p "collection" (.str "Unknown")) (pgetD p "price" (.num 0)) } ∧
    ∀ r, blockchain_process_event pr ts ⟨some p, u⟩ = .processed r →
      r.sub.errorField = some e := by
  have hmain : blockchain_process_event pr ts ⟨some p, u⟩ =
      .processed { id := "blockchain_" ++ toString ts, type := "blockchain_event"
                 , original_data := p
                 , sub := .nftErr ("nft_sale_error_" ++ toString ts) e
                     (pgetD p "collection" (.str "Unknown")) (pgetD p "price" (.num 0)) } := by
    simp [blockchain_process_event, blockchain_inner, getData, hv, ht,
      process_nft_sale, hf]
  refine ⟨hmain, ?_⟩
  intro r hr
  rw [hmain] at hr
  cases hr
  rfl

/-- C10 witness: the concrete NFT-sale payload with `price = "abc"` at
timestamp 7 yields the success-path result carrying the float-conversion
error inside. -/
theorem nft_sub_error_not_surfaced_witness :
    blockchain_validate_event nftBadPricePayload = true ∧
    blockchain_process_event constProviders 7 ⟨some nftBadPricePayload, none⟩ =
      .processed { id := "blockchain_7", type := "blockchain_event"
                 , original_data := nftBadPricePayload
                 , sub := .nftErr "nft_sale_error_7"
                     "could not convert string to float: 'abc'"
                     (DataValue.str "Unknown") (DataValue.str "abc") } :=
  ⟨by decide,
   (nft_sub_error_not_surfaced constProviders 7 none nftBadPricePayload
     "could not convert string to float: 'abc'" (by decide) rfl rfl).1⟩

end EEA
